import Mathlib

/-!
Shallow embedding of `src/Zonage_PNA.py` (the PNA zone-verification tool).

The embedding covers the three parts of the program the claims are about:

* the zone matcher `is_in_pna` (source lines 84-128): state-passing rendering
  of the Python function; since Python mutates each matched feature's
  `properties` dict in place, the Lean function returns the updated dataset
  collection alongside the `(bool, results)` pair;
* the upload/classification loop (source lines 161-240): per-file processing
  with the filename heuristic, the content heuristic over the first ten
  features, and the structural `type`/`features` validation;
* the geometric primitives delegated to shapely: shapes are modelled as
  axis-aligned rectangles with exact integer coordinates (a representative
  class of polygons), `contains` is interior membership (shapely's `contains`
  for a point), and `intersects` with the closed 1-metre buffer disc holds
  exactly when the squared Euclidean distance from the point to the closed
  rectangle is at most the squared radius.  An unparsable geometry (the
  `shape(...)` call raising) is the `RawGeom.invalid` constructor.

Python dicts are modelled as association lists with Python's assignment
semantics: overwriting an existing key keeps its position, a new key is
appended at the end.
-/

namespace ZonagePNA

/-! ### String helpers: Python `sub in s` and `s.lower()` -/

/-- Python `s.lower()` on the character list (ASCII case folding, which is all
the heuristics' keywords need). -/
def strLower (s : String) : String := String.mk (s.data.map Char.toLower)

/-- The first list is an initial segment of the second. -/
def leadsWith {α : Type} [DecidableEq α] : List α → List α → Bool
  | [], _ => true
  | _ :: _, [] => false
  | a :: as, b :: bs => a = b && leadsWith as bs

/-- The first list occurs contiguously inside the second (Python `sub in s`). -/
def containsSeg {α : Type} [DecidableEq α] : List α → List α → Bool
  | needle, [] => leadsWith needle []
  | needle, b :: bs => leadsWith needle (b :: bs) || containsSeg needle bs

/-- Python `needle in s` on strings. -/
def strContains (needle s : String) : Bool := containsSeg needle.data s.data

/-- Helper for Python `name.split('.')[-1]`: the segment after the last dot
(the whole string when there is no dot).  `cur` is the segment read so far. -/
def lastSegment : List Char → List Char → List Char
  | cur, [] => cur
  | cur, c :: cs => if c = '.' then lastSegment [] cs else lastSegment (cur ++ [c]) cs

/-- Python `name.split('.')[-1].lower()` (source line 164). -/
def fileExtension (name : String) : String :=
  strLower (String.mk (lastSegment [] name.data))

/-! ### Geometry: the shapely primitives used at source lines 99-108 -/

/-- Raw GeoJSON geometry as stored in a feature: either a parseable shape
(an axis-aligned rectangle with integer coordinates, standing in for the
polygon/multipolygon cases) or data that makes `shape(...)` raise. -/
inductive RawGeom where
  | rect (x1 y1 x2 y2 : ℤ) : RawGeom
  | invalid : RawGeom
  deriving DecidableEq

/-- A successfully parsed shapely shape. -/
inductive Geometry where
  | rect (x1 y1 x2 y2 : ℤ) : Geometry
  deriving DecidableEq

/-- `shape(feature['geometry'])` at source line 104: raises (`none`) on
invalid data, otherwise yields the shape. -/
def parseShape : RawGeom → Option Geometry
  | RawGeom.rect x1 y1 x2 y2 => some (Geometry.rect x1 y1 x2 y2)
  | RawGeom.invalid => none

/-- shapely `pna_shape.contains(point)`: the point lies in the interior of
the rectangle (shapely's `contains` excludes the boundary). -/
def containsPt : Geometry → ℤ × ℤ → Bool
  | Geometry.rect x1 y1 x2 y2, (px, py) =>
    decide (x1 < px ∧ px < x2 ∧ y1 < py ∧ py < y2)

/-- shapely `pna_shape.intersects(point.buffer(r))`: the closed disc of
radius `r` about the point meets the closed rectangle, i.e. the squared
distance from the point to the rectangle is at most `r * r`. -/
def intersectsBuffer : Geometry → ℤ × ℤ → ℤ → Bool
  | Geometry.rect x1 y1 x2 y2, (px, py), r =>
    let dx := max 0 (max (x1 - px) (px - x2))
    let dy := max 0 (max (y1 - py) (py - y2))
    decide (dx * dx + dy * dy ≤ r * r)

/-- The match test at source line 108:
`pna_shape.contains(point_l93) or pna_shape.intersects(point_buffer)` with
the 1-metre buffer built at line 99. -/
def matchTest (g : Geometry) (p : ℤ × ℤ) : Bool :=
  containsPt g p || intersectsBuffer g p 1

/-! ### Python dicts as association lists -/

/-- Property values; GeoJSON scalar attribute values rendered as strings. -/
abbrev Props := List (String × String)

/-- Python `d[k] = v`: replace in place when the key exists (keeping its
position), otherwise append at the end. -/
def dictInsert {α : Type} (k : String) (v : α) : List (String × α) → List (String × α)
  | [] => [(k, v)]
  | (k', v') :: rest => if k' = k then (k, v) :: rest else (k', v') :: dictInsert k v rest

/-- Python `d.get(k)` / `k in d` lookup. -/
def dictGet {α : Type} : List (String × α) → String → Option α
  | [], _ => none
  | (k', v) :: rest, k => if k' = k then some v else dictGet rest k

/-- Python `d.get(k, dflt)`. -/
def dictGetD {α : Type} (d : List (String × α)) (k : String) (dflt : α) : α :=
  (dictGet d k).getD dflt

/-! ### The data model of a session -/

/-- One GeoJSON feature: its `geometry` value and its `properties` dict
(`none` when the feature has no `properties` key, which in the source makes
the per-feature `feature['properties']` access raise). -/
structure Feature where
  geometry : RawGeom
  properties : Option Props
  deriving DecidableEq

/-- A parsed uploaded document: presence of the top-level `type` and
`features` keys (checked at source line 192) and the `features` array. -/
structure Doc where
  hasType : Bool
  hasFeatures : Bool
  features : List Feature
  deriving DecidableEq

/-- One entry of `all_data_sources`: `{"data": ..., "type": ...}`
(source lines 229-232). -/
structure FileInfo where
  data : Doc
  type : String
  deriving DecidableEq

/-- An uploaded file: its name and the result of `json.load` (`none` when
parsing raises, source line 189). -/
structure UploadedFile where
  name : String
  parsed : Option Doc
  deriving DecidableEq

/-! ### The zone matcher `is_in_pna` (source lines 84-128) -/

/-- The property updates performed on a matched feature (source lines
108-118): for Chiroptères datasets add `enjeu_détaillé` from `t_enjeux`
(default `Indéterminé`), then stamp `type_pna` and `fichier_source`.
All three writes go into the feature's own dict. -/
def transformProps (file_name data_type : String) (props : Props) : Props :=
  let props1 :=
    if data_type = "Chiroptères" then
      dictInsert "enjeu_détaillé" (dictGetD props "t_enjeux" "Indéterminé") props
    else props
  let props2 := dictInsert "type_pna" data_type props1
  dictInsert "fichier_source" file_name props2

/-- One iteration of the inner feature loop (source lines 102-120).  The
accumulator carries the `results` list and the features processed so far
(with their in-place property mutations); a raising `shape(...)` call or a
missing `properties` key hits the `except: continue` and leaves the feature
untouched. -/
def matchStep (file_name data_type : String) (p : ℤ × ℤ)
    (acc : List Props × List Feature) (f : Feature) : List Props × List Feature :=
  match parseShape f.geometry, f.properties with
  | some g, some props =>
    if matchTest g p then
      let props' := transformProps file_name data_type props
      (acc.1 ++ [props'], acc.2 ++ [{ f with properties := some props' }])
    else (acc.1, acc.2 ++ [f])
  | _, _ => (acc.1, acc.2 ++ [f])

/-- The body of the outer dataset loop (source lines 94-120) for one entry of
`all_data_sources`, threading the shared `results` list. -/
def processDataset (p : ℤ × ℤ) (results0 : List Props)
    (file_name : String) (info : FileInfo) : List Props × FileInfo :=
  let r := info.data.features.foldl (matchStep file_name info.type p) (results0, [])
  (r.1, ⟨⟨info.data.hasType, info.data.hasFeatures, r.2⟩, info.type⟩)

/-- One iteration of the outer loop over `all_data_sources.items()`
(source line 94), threading the `results` list and collecting the
post-mutation state of each dataset. -/
def datasetStep (p : ℤ × ℤ) (acc : List Props × List (String × FileInfo))
    (e : String × FileInfo) : List Props × List (String × FileInfo) :=
  let r := processDataset p acc.1 e.1 e.2
  (r.1, acc.2 ++ [(e.1, r.2)])

/-- The matcher `is_in_pna` (source lines 84-128).  `lat`/`lon` build the
unused WGS84 display point; matching uses the Lambert-93 point `(x, y)`.
Besides the Python return value `(bool, results-or-None)` the embedding
returns the dataset collection as it stands after the call, reflecting the
in-place mutation of matched features' `properties` dicts. -/
def is_in_pna (lat lon x y : ℤ) (sources : List (String × FileInfo)) :
    (Bool × Option (List Props)) × List (String × FileInfo) :=
  let _point_wgs84 : ℤ × ℤ := (lon, lat)
  let point_l93 : ℤ × ℤ := (x, y)
  let z := sources.foldl (datasetStep point_l93) ([], [])
  (if z.1 = [] then (false, none) else (true, some z.1), z.2)

/-! ### Declarative description of the matcher, for the refinement claims -/

/-- Declarative per-feature outcome: `some` of the transformed properties
exactly when the geometry parses, the `properties` key is present, and the
contains-or-buffer-intersects test holds. -/
def featureMatchOpt (file_name data_type : String) (p : ℤ × ℤ) (f : Feature) :
    Option Props :=
  match parseShape f.geometry, f.properties with
  | some g, some props =>
    if matchTest g p then some (transformProps file_name data_type props) else none
  | _, _ => none

/-- Declarative per-feature post-state: a matched feature carries the
transformed properties, any other feature is unchanged. -/
def updatedFeature (file_name data_type : String) (p : ℤ × ℤ) (f : Feature) : Feature :=
  match featureMatchOpt file_name data_type p f with
  | some props' => { f with properties := some props' }
  | none => f

/-- Declarative match list: datasets in iteration order, features in
collection order, one result per satisfied feature. -/
def specMatches (p : ℤ × ℤ) (sources : List (String × FileInfo)) : List Props :=
  sources.flatMap fun e => e.2.data.features.filterMap (featureMatchOpt e.1 e.2.type p)

/-- Declarative post-state of the dataset collection after one query. -/
def specUpdated (p : ℤ × ℤ) (sources : List (String × FileInfo)) :
    List (String × FileInfo) :=
  sources.map fun e =>
    (e.1, ⟨⟨e.2.data.hasType, e.2.data.hasFeatures,
            e.2.data.features.map (updatedFeature e.1 e.2.type p)⟩, e.2.type⟩)

/-! ### Dataset classification and loading (source lines 161-240) -/

/-- The filename heuristic (source lines 172-182), applied to the raw file
name; each test is a case-insensitive substring check.  Note the Python
operator precedence at line 181: `a and b or c` is `(a and b) or c`. -/
def detect_by_filename (file_name : String) : String :=
  let fn := strLower file_name
  if strContains "chiroptere" fn || strContains "chauve" fn then "Chiroptères"
  else if strContains "odonat" fn || strContains "libellule" fn then "Odonates"
  else if strContains "griseche" fn && strContains "grise" fn then "Pie-grièche grise"
  else if strContains "griseche" fn && strContains "merid" fn then "Pie-grièche méridionale"
  else if (strContains "griseche" fn && strContains "rousse" fn) || strContains "tete rousse" fn
    then "Pie-grièche à tête rousse"
  else "Type non détecté"

/-- The rule applied to one lowercased `n_espece` value in the content
heuristic (source lines 202-218); `none` when no rule fires (the loop then
moves to the next feature without breaking). -/
def speciesRule (espece : String) : Option String :=
  if strContains "chauve" espece || strContains "chiroptère" espece
      || strContains "chiroptere" espece then some "Chiroptères"
  else if strContains "odonates" espece || strContains "libellule" espece then
    some "Odonates"
  else if strContains "grièche" espece || strContains "grieche" espece then
    if strContains "grise" espece && !(strContains "tête" espece)
        && !(strContains "tete" espece) then some "Pie-grièche grise"
    else if strContains "mérid" espece || strContains "merid" espece then
      some "Pie-grièche méridionale"
    else if strContains "tête rousse" espece || strContains "tete rousse" espece then
      some "Pie-grièche à tête rousse"
    else none
  else none

/-- The content heuristic (source lines 196-218): scan the first ten
features, skip those without a `properties` key or an `n_espece` attribute,
and stop at the first feature for which a species rule fires. -/
def detect_by_content (feats : List Feature) : String :=
  ((feats.take 10).findSome? fun f =>
    f.properties.bind fun props =>
      (dictGet props "n_espece").bind fun v => speciesRule (strLower v)).getD
    "Type non détecté"

/-- The classification stored for a structurally valid document (the
`current_type` computation of source lines 167-226): forced mode copies the
selector value; auto mode runs the filename heuristic, falls back to the
content heuristic only when the filename found nothing, and maps a still
undetected type to `Type inconnu`. -/
def classifyValid (mode file_name : String) (feats : List Feature) : String :=
  let detected0 :=
    if mode = "Détection automatique" then detect_by_filename file_name
    else "Type non détecté"
  let current0 := if mode = "Détection automatique" then detected0 else mode
  let current1 :=
    if mode = "Détection automatique" ∧ detected0 = "Type non détecté" then
      let c := detect_by_content feats
      if c ≠ "Type non détecté" then c else current0
    else current0
  if current1 = "Type non détecté" then "Type inconnu" else current1

/-- Processing of one uploaded file (source lines 162-240): the extension
gate, `json.load` (raising → caught, error shown, file skipped), the
`type`/`features` structural check (failing → error shown, file skipped),
and otherwise the entry added to `all_data_sources`. -/
def processFile (mode : String) (f : UploadedFile) : Option (String × FileInfo) :=
  let ext := fileExtension f.name
  if ext = "geojson" ∨ ext = "json" then
    match f.parsed with
    | none => none
    | some data =>
      if data.hasType ∧ data.hasFeatures then
        some (f.name, ⟨data, classifyValid mode f.name data.features⟩)
      else none
  else none

/-- The whole upload loop: build `all_data_sources` (a Python dict, hence
`dictInsert`) from the uploaded files in order, skipping rejected ones. -/
def loadFiles (mode : String) (files : List UploadedFile) : List (String × FileInfo) :=
  files.foldl
    (fun acc f =>
      match processFile mode f with
      | some (n, info) => dictInsert n info acc
      | none => acc)
    []

/-! ### Auxiliary predicates and concrete sessions used in the theorems -/

/-- A feature whose geometry the `shape(...)` call can interpret. -/
def validGeom (f : Feature) : Bool := (parseShape f.geometry).isSome

/-- An uploaded document the loader rejects: `json.load` raises, or the
top-level `type` or `features` key is missing (source lines 189-192). -/
def invalidUpload (f : UploadedFile) : Prop :=
  f.parsed = none ∨
    ∃ d, f.parsed = some d ∧ (d.hasType = false ∨ d.hasFeatures = false)

/-- A session with one dataset whose single polygon is far from the origin. -/
def farSources : List (String × FileInfo) :=
  [("far.geojson",
    ⟨⟨true, true, [⟨RawGeom.rect 100 100 200 200, some [("n_espece", "x")]⟩]⟩,
     "Odonates"⟩)]

/-- A session with one Chiroptères dataset whose single polygon holds the
origin in its interior. -/
def chiroSources : List (String × FileInfo) :=
  [("chiro.geojson",
    ⟨⟨true, true, [⟨RawGeom.rect (-10) (-10) 10 10, some [("t_enjeux", "fort")]⟩]⟩,
     "Chiroptères"⟩)]

/-- A session with one Odonates dataset whose single polygon holds the
origin in its interior. -/
def odoSources : List (String × FileInfo) :=
  [("odo.geojson",
    ⟨⟨true, true, [⟨RawGeom.rect (-5) (-5) 5 5, some [("n_espece", "lib")]⟩]⟩,
     "Odonates"⟩)]

/-- The emitted properties of the single match of `chiroSources` at the
origin. -/
def chiroResult : Props :=
  [("t_enjeux", "fort"), ("enjeu_détaillé", "fort"),
   ("type_pna", "Chiroptères"), ("fichier_source", "chiro.geojson")]

/-- An uploaded file whose `json.load` raises. -/
def badUpload : UploadedFile := ⟨"broken.geojson", none⟩

/-- A structurally valid uploaded file. -/
def goodUpload : UploadedFile :=
  ⟨"chiroptere_zones.geojson", some ⟨true, true, []⟩⟩

/-- A second structurally valid uploaded file. -/
def goodUpload2 : UploadedFile :=
  ⟨"odonat_zones.geojson", some ⟨true, true, []⟩⟩

/-- Features whose content the classifier would read as Odonates. -/
def odoContentFeats : List Feature :=
  [⟨RawGeom.invalid, some [("n_espece", "libellule")]⟩]

/-! ### Refinement: the imperative folds compute the declarative description -/

lemma matchStep_featureMatchOpt (file_name data_type : String) (p : ℤ × ℤ)
    (acc : List Props × List Feature) (f : Feature) :
    matchStep file_name data_type p acc f =
      (acc.1 ++ (featureMatchOpt file_name data_type p f).toList,
       acc.2 ++ [updatedFeature file_name data_type p f]) := by
  obtain ⟨geom, fprops⟩ := f
  unfold matchStep updatedFeature featureMatchOpt
  cases hg : parseShape geom <;> cases fprops <;> simp
  split <;> simp [*]

lemma foldl_matchStep (file_name data_type : String) (p : ℤ × ℤ)
    (fs : List Feature) : ∀ (r0 : List Props) (fs0 : List Feature),
    fs.foldl (matchStep file_name data_type p) (r0, fs0) =
      (r0 ++ fs.filterMap (featureMatchOpt file_name data_type p),
       fs0 ++ fs.map (updatedFeature file_name data_type p)) := by
  induction fs with
  | nil => intro r0 fs0; simp
  | cons f fs ih =>
    intro r0 fs0
    rw [List.foldl_cons, matchStep_featureMatchOpt, ih]
    cases h : featureMatchOpt file_name data_type p f <;>
      simp [List.filterMap_cons, h]

lemma processDataset_spec (p : ℤ × ℤ) (results0 : List Props)
    (file_name : String) (info : FileInfo) :
    processDataset p results0 file_name info =
      (results0 ++ info.data.features.filterMap (featureMatchOpt file_name info.type p),
       ⟨⟨info.data.hasType, info.data.hasFeatures,
         info.data.features.map (updatedFeature file_name info.type p)⟩, info.type⟩) := by
  unfold processDataset
  rw [foldl_matchStep]
  simp

lemma foldl_datasets (p : ℤ × ℤ) (sources : List (String × FileInfo)) :
    ∀ (r0 : List Props) (s0 : List (String × FileInfo)),
    sources.foldl (datasetStep p) (r0, s0) =
      (r0 ++ specMatches p sources, s0 ++ specUpdated p sources) := by
  induction sources with
  | nil => intro r0 s0; simp [specMatches, specUpdated]
  | cons e sources ih =>
    intro r0 s0
    rw [List.foldl_cons]
    have hstep : datasetStep p (r0, s0) e =
        (r0 ++ e.2.data.features.filterMap (featureMatchOpt e.1 e.2.type p),
         s0 ++ [(e.1, ⟨⟨e.2.data.hasType, e.2.data.hasFeatures,
            e.2.data.features.map (updatedFeature e.1 e.2.type p)⟩, e.2.type⟩)]) := by
      simp [datasetStep, processDataset_spec]
    rw [hstep, ih]
    simp [specMatches, specUpdated]

/-- The matcher computes exactly the declarative match list and post-state. -/
lemma is_in_pna_spec (lat lon x y : ℤ) (sources : List (String × FileInfo)) :
    is_in_pna lat lon x y sources =
      (if specMatches (x, y) sources = [] then (false, none)
       else (true, some (specMatches (x, y) sources)),
       specUpdated (x, y) sources) := by
  simp only [is_in_pna]
  rw [foldl_datasets]
  simp

/-! ### Lookup lemmas for the dict model -/

lemma dictGet_dictInsert_self {α : Type} (k : String) (v : α)
    (d : List (String × α)) : dictGet (dictInsert k v d) k = some v := by
  induction d with
  | nil => simp [dictInsert, dictGet]
  | cons kv rest ih =>
    obtain ⟨k', v'⟩ := kv
    by_cases h : k' = k <;> simp [dictInsert, dictGet, h, ih]

lemma dictGet_dictInsert_ne {α : Type} {k' k : String} (h : k' ≠ k) (v : α)
    (d : List (String × α)) : dictGet (dictInsert k' v d) k = dictGet d k := by
  induction d with
  | nil => simp [dictInsert, dictGet, h]
  | cons kv rest ih =>
    obtain ⟨k'', v''⟩ := kv
    by_cases h2 : k'' = k' <;> simp [dictInsert, dictGet, h, h2, ih]

lemma transformProps_fichier_source (file_name data_type : String) (props : Props) :
    dictGet (transformProps file_name data_type props) "fichier_source" =
      some file_name := by
  unfold transformProps
  exact dictGet_dictInsert_self _ _ _

lemma transformProps_type_pna (file_name data_type : String) (props : Props) :
    dictGet (transformProps file_name data_type props) "type_pna" = some data_type := by
  unfold transformProps
  rw [dictGet_dictInsert_ne (by decide)]
  exact dictGet_dictInsert_self _ _ _

lemma transformProps_enjeu (file_name : String) (props : Props) :
    dictGet (transformProps file_name "Chiroptères" props) "enjeu_détaillé" =
      some (dictGetD props "t_enjeux" "Indéterminé") := by
  unfold transformProps
  rw [dictGet_dictInsert_ne (by decide), dictGet_dictInsert_ne (by decide)]
  simp [dictGet_dictInsert_self]

/-! ### Substring lemmas: a segment of a segment is a segment -/

lemma leadsWith_trans {α : Type} [DecidableEq α] :
    ∀ {a b c : List α}, leadsWith a b = true → leadsWith b c = true →
      leadsWith a c = true := by
  intro a
  induction a with
  | nil => intro b c _ _; rfl
  | cons x xs ih =>
    intro b c hab hbc
    cases b with
    | nil => simp [leadsWith] at hab
    | cons y ys =>
      cases c with
      | nil => simp [leadsWith] at hbc
      | cons z zs =>
        simp only [leadsWith, Bool.and_eq_true, decide_eq_true_eq] at hab hbc ⊢
        exact ⟨hab.1.trans hbc.1, ih hab.2 hbc.2⟩

lemma containsSeg_of_leadsWith {α : Type} [DecidableEq α] {a b : List α}
    (hab : leadsWith a b = true) :
    ∀ {h : List α}, containsSeg b h = true → containsSeg a h = true := by
  intro h
  induction h with
  | nil =>
    intro hb
    cases b with
    | nil =>
      cases a with
      | nil => rfl
      | cons x xs => simp [leadsWith] at hab
    | cons y ys => simp [containsSeg, leadsWith] at hb
  | cons c cs ih =>
    intro hb
    simp only [containsSeg, Bool.or_eq_true] at hb ⊢
    rcases hb with hb | hb
    · exact Or.inl (leadsWith_trans hab hb)
    · exact Or.inr (ih hb)

lemma strContains_griseche_grise {s : String}
    (h : strContains "griseche" s = true) : strContains "grise" s = true :=
  containsSeg_of_leadsWith (by decide) h

/-! ### Geometry lemma: containment implies buffer intersection -/

lemma containsPt_intersectsBuffer {g : Geometry} {p : ℤ × ℤ}
    (h : containsPt g p = true) : intersectsBuffer g p 1 = true := by
  obtain ⟨x1, y1, x2, y2⟩ := g
  obtain ⟨px, py⟩ := p
  simp only [containsPt, decide_eq_true_eq] at h
  obtain ⟨h1, h2, h3, h4⟩ := h
  simp only [intersectsBuffer, decide_eq_true_eq]
  have hdx : max 0 (max (x1 - px) (px - x2)) = 0 :=
    max_eq_left (max_le (by omega) (by omega))
  have hdy : max 0 (max (y1 - py) (py - y2)) = 0 :=
    max_eq_left (max_le (by omega) (by omega))
  rw [hdx, hdy]
  omega

lemma featureMatchOpt_invalid {f : Feature} (h : parseShape f.geometry = none)
    (file_name data_type : String) (p : ℤ × ℤ) :
    featureMatchOpt file_name data_type p f = none := by
  unfold featureMatchOpt
  rw [h]

lemma filterMap_featureMatchOpt_filter (file_name data_type : String)
    (p : ℤ × ℤ) (fs : List Feature) :
    (fs.filter validGeom).filterMap (featureMatchOpt file_name data_type p) =
      fs.filterMap (featureMatchOpt file_name data_type p) := by
  induction fs with
  | nil => rfl
  | cons f fs ih =>
    by_cases hv : validGeom f = true
    · simp only [List.filter_cons_of_pos hv, List.filterMap_cons, ih]
    · have hnone : parseShape f.geometry = none := by
        simp only [validGeom, Option.isSome_iff_exists] at hv
        cases h : parseShape f.geometry
        · rfl
        · exact absurd ⟨_, h⟩ hv
      simp only [List.filter_cons_of_neg hv, List.filterMap_cons,
        featureMatchOpt_invalid hnone, ih]

/-! ## The claims -/

/-- C10: for every polygon geometry `g` and projected point `p`, `g`
containing `p` implies `g` intersecting the 1-metre buffer around `p`, so
the matcher's two-part test `contains(p) or intersects(buffer(p, 1))` is
extensionally equal to the single test `intersects(buffer(p, 1))`. -/
theorem c10_contains_subsumed_by_buffer (g : Geometry) (p : ℤ × ℤ) :
    (containsPt g p = true → intersectsBuffer g p 1 = true) ∧
    matchTest g p = intersectsBuffer g p 1 := by
  constructor
  · exact containsPt_intersectsBuffer
  · unfold matchTest
    cases h : containsPt g p
    · simp
    · simp [containsPt_intersectsBuffer h]

/-- Witness for C10: a concrete rectangle containing the concrete point
also intersects its buffer, and the two tests agree there. -/
theorem c10_witness :
    containsPt (Geometry.rect (-10) (-10) 10 10) (0, 0) = true ∧
    intersectsBuffer (Geometry.rect (-10) (-10) 10 10) (0, 0) 1 = true ∧
    matchTest (Geometry.rect (-10) (-10) 10 10) (0, 0) =
      intersectsBuffer (Geometry.rect (-10) (-10) 10 10) (0, 0) 1 :=
  ⟨by decide,
   (c10_contains_subsumed_by_buffer (Geometry.rect (-10) (-10) 10 10) (0, 0)).1
     (by decide),
   (c10_contains_subsumed_by_buffer (Geometry.rect (-10) (-10) 10 10) (0, 0)).2⟩

/-- C3, refuted (code bug): in auto-detect mode, a file name containing
both `griseche` and `merid` is classified `Pie-grièche grise`, not
`Pie-grièche méridionale`, because `grise` is a substring of `griseche`
itself, so the `griseche`/`grise` branch (source line 177) always fires
first and the `merid` branch (source line 179) is unreachable; for the same
reason the filename rule applies no `tête`/`tete` exclusion. -/
theorem c3_merid_filename_branch_dead :
    detect_by_filename "griseche_merid.geojson" = "Pie-grièche grise" ∧
    detect_by_filename "griseche_tete_rousse.geojson" = "Pie-grièche grise" ∧
    ∀ file_name, detect_by_filename file_name ≠ "Pie-grièche méridionale" := by
  refine ⟨by decide, by decide, ?_⟩
  intro file_name
  simp only [detect_by_filename]
  split_ifs with h1 h2 h3 h4 h5 <;> try decide
  rw [Bool.and_eq_true] at h4
  exact absurd (by rw [Bool.and_eq_true]; exact ⟨h4.1, strContains_griseche_grise h4.1⟩) h3

/-- Witness for C3: the dead-branch theorem instantiated at a concrete
file name. -/
theorem c3_witness :
    detect_by_filename "griseche_merid.geojson" ≠ "Pie-grièche méridionale" :=
  c3_merid_filename_branch_dead.2.2 "griseche_merid.geojson"

/-- C6: when the user picked one of the five concrete plan types instead of
auto-detect, the classifier stores that forced type unconditionally — for
every file name and every feature content — and every entry the loader
accepts carries it; neither the filename nor the content heuristic takes
part. -/
theorem c6_forced_type_unconditional (mode : String)
    (h : mode ∈ ["Chiroptères", "Odonates", "Pie-grièche grise",
                 "Pie-grièche méridionale", "Pie-grièche à tête rousse"]) :
    (∀ file_name feats, classifyValid mode file_name feats = mode) ∧
    (∀ f entry, processFile mode f = some entry → entry.2.type = mode) := by
  have hauto : mode ≠ "Détection automatique" := by
    simp only [List.mem_cons, List.not_mem_nil, or_false] at h
    rcases h with rfl | rfl | rfl | rfl | rfl <;> decide
  have hnd : mode ≠ "Type non détecté" := by
    simp only [List.mem_cons, List.not_mem_nil, or_false] at h
    rcases h with rfl | rfl | rfl | rfl | rfl <;> decide
  have hcv : ∀ file_name feats, classifyValid mode file_name feats = mode := by
    intro file_name feats
    simp [classifyValid, hauto, hnd]
  refine ⟨hcv, ?_⟩
  intro f entry hpe
  obtain ⟨nm, parsed⟩ := f
  cases parsed with
  | none => simp [processFile] at hpe
  | some data =>
    simp only [processFile] at hpe
    split at hpe
    · split at hpe
      · cases hpe
        simp [hcv]
      · simp at hpe
    · simp at hpe

/-- Witness for C6: forcing `Chiroptères` on a file whose name and content
would both classify as Odonates still stores `Chiroptères`. -/
theorem c6_witness :
    "Chiroptères" ∈ ["Chiroptères", "Odonates", "Pie-grièche grise",
                     "Pie-grièche méridionale", "Pie-grièche à tête rousse"] ∧
    classifyValid "Chiroptères" "odonat_zones.geojson" odoContentFeats =
      "Chiroptères" ∧
    ("odonat_zones.geojson",
      (⟨⟨true, true, []⟩, "Chiroptères"⟩ : FileInfo)).2.type = "Chiroptères" :=
  ⟨by decide,
   (c6_forced_type_unconditional "Chiroptères" (by decide)).1
     "odonat_zones.geojson" odoContentFeats,
   (c6_forced_type_unconditional "Chiroptères" (by decide)).2 goodUpload2
     ("odonat_zones.geojson", ⟨⟨true, true, []⟩, "Chiroptères"⟩) (by decide)⟩

/-- C7: in auto-detect mode the filename heuristic has strict priority —
when it fires, the stored type is its verdict for every feature content
(the contents are never inspected) — and the content heuristic only ever
looks at the first ten features: the classification only depends on
`feats.take 10`. -/
theorem c7_filename_priority (file_name : String)
    (h : detect_by_filename file_name ≠ "Type non détecté") :
    (∀ feats, classifyValid "Détection automatique" file_name feats =
      detect_by_filename file_name) ∧
    (∀ nm feats, classifyValid "Détection automatique" nm feats =
      classifyValid "Détection automatique" nm (feats.take 10)) := by
  constructor
  · intro feats
    simp [classifyValid, h]
  · intro nm feats
    simp [classifyValid, detect_by_content, List.take_take]

/-- Witness for C7: a file named `chiroptere_zones.geojson` is classified
Chiroptera even when its features read as Odonates, and the classification
of any file only depends on the first ten features. -/
theorem c7_witness :
    detect_by_filename "chiroptere_zones.geojson" ≠ "Type non détecté" ∧
    classifyValid "Détection automatique" "chiroptere_zones.geojson"
      odoContentFeats = detect_by_filename "chiroptere_zones.geojson" ∧
    classifyValid "Détection automatique" "plain.geojson" odoContentFeats =
      classifyValid "Détection automatique" "plain.geojson"
        (odoContentFeats.take 10) :=
  ⟨by decide,
   (c7_filename_priority "chiroptere_zones.geojson" (by decide)).1 odoContentFeats,
   (c7_filename_priority "chiroptere_zones.geojson" (by decide)).2
     "plain.geojson" odoContentFeats⟩

/-- C1: the matcher evaluates every feature of every dataset with no early
termination; a feature contributes a result exactly when its parsed
geometry contains the exact projected point or intersects the 1-metre
buffer; the results are in dataset iteration order and, within a dataset,
in feature collection order. -/
theorem c1_all_features_in_order (lat lon x y : ℤ)
    (sources : List (String × FileInfo)) :
    ((is_in_pna lat lon x y sources).1.2.getD [] =
      sources.flatMap fun e =>
        e.2.data.features.filterMap (featureMatchOpt e.1 e.2.type (x, y))) ∧
    (∀ (file_name data_type : String) (f : Feature) (g : Geometry),
      parseShape f.geometry = some g → f.properties.isSome = true →
      ((featureMatchOpt file_name data_type (x, y) f).isSome = true ↔
        (containsPt g (x, y) = true ∨ intersectsBuffer g (x, y) 1 = true))) := by
  constructor
  · rw [is_in_pna_spec]
    by_cases h : specMatches (x, y) sources = []
    · simp only [if_pos h, Option.getD_none]
      rw [← h]
      rfl
    · simp only [if_neg h, Option.getD_some]
      rfl
  · intro file_name data_type f g hg hp
    obtain ⟨ps, hps⟩ := Option.isSome_iff_exists.mp hp
    unfold featureMatchOpt
    rw [hg, hps]
    have hi : (if matchTest g (x, y) = true
        then some (transformProps file_name data_type ps) else none).isSome =
          matchTest g (x, y) := by
      split <;> simp_all
    rw [hi]
    simp [matchTest, Bool.or_eq_true]

/-- Witness for C1 at a concrete one-dataset session and feature. -/
theorem c1_witness :
    ((is_in_pna 0 0 0 0 odoSources).1.2.getD [] =
      odoSources.flatMap fun e =>
        e.2.data.features.filterMap (featureMatchOpt e.1 e.2.type (0, 0))) ∧
    ((featureMatchOpt "odo.geojson" "Odonates" (0, 0)
        ⟨RawGeom.rect (-5) (-5) 5 5, some [("n_espece", "lib")]⟩).isSome = true ↔
      (containsPt (Geometry.rect (-5) (-5) 5 5) (0, 0) = true ∨
        intersectsBuffer (Geometry.rect (-5) (-5) 5 5) (0, 0) 1 = true)) :=
  ⟨(c1_all_features_in_order 0 0 0 0 odoSources).1,
   (c1_all_features_in_order 0 0 0 0 odoSources).2 "odo.geojson" "Odonates"
     ⟨RawGeom.rect (-5) (-5) 5 5, some [("n_espece", "lib")]⟩
     (Geometry.rect (-5) (-5) 5 5) (by decide) (by decide)⟩

/-- C2 counterexample: in the claim's own no-match scenario the matcher
returns `(False, None)` — the second component is `None`, not an empty
result sequence. -/
theorem c2_counterexample :
    (is_in_pna 0 0 0 0 farSources).1.2 = none ∧
    (is_in_pna 0 0 0 0 farSources).1.2 ≠ some ([] : List Props) := by
  constructor <;> decide

/-- C2 (amended): when zero features match across all datasets, the matcher
returns the flag `false` paired with `None` (no result sequence at all),
rather than an empty sequence. -/
theorem c2_no_match_returns_none (lat lon x y : ℤ)
    (sources : List (String × FileInfo))
    (h : specMatches (x, y) sources = []) :
    (is_in_pna lat lon x y sources).1 = (false, none) := by
  rw [is_in_pna_spec]
  simp [h]

/-- Witness for C2 at the no-match scenario. -/
theorem c2_witness :
    specMatches (0, 0) farSources = [] ∧
    (is_in_pna 0 0 0 0 farSources).1 = (false, none) :=
  ⟨by decide, c2_no_match_returns_none 0 0 0 0 farSources (by decide)⟩

/-- C4 counterexample: a query mutates the stored datasets — after the
call the session differs from what was loaded, and the stored feature's
properties now carry the derived `type_pna` field. -/
theorem c4_counterexample :
    (is_in_pna 0 0 0 0 chiroSources).2 ≠ chiroSources ∧
    (is_in_pna 0 0 0 0 chiroSources).1.2 = some [chiroResult] ∧
    dictGet ((((is_in_pna 0 0 0 0 chiroSources).2.headD
        ("", ⟨⟨false, false, []⟩, ""⟩)).2.data.features.headD
        ⟨RawGeom.invalid, none⟩).properties.getD []) "type_pna" =
      some "Chiroptères" := by
  refine ⟨by decide, by decide, by decide⟩

/-- C4 (amended): the matcher updates each matched feature's stored
properties in place — the post-call session is the loaded one with every
matched feature's mapping replaced by the augmented mapping — and each
emitted result is exactly that feature's own updated mapping, not an
independent copy; unmatched features are left unchanged. -/
theorem c4_in_place_mutation (lat lon x y : ℤ)
    (sources : List (String × FileInfo)) :
    (is_in_pna lat lon x y sources).2 = specUpdated (x, y) sources ∧
    (∀ (file_name data_type : String) (f : Feature) (r : Props),
      featureMatchOpt file_name data_type (x, y) f = some r →
      (updatedFeature file_name data_type (x, y) f).properties = some r) ∧
    (∀ (file_name data_type : String) (f : Feature),
      featureMatchOpt file_name data_type (x, y) f = none →
      updatedFeature file_name data_type (x, y) f = f) := by
  refine ⟨?_, ?_, ?_⟩
  · rw [is_in_pna_spec]
  · intro file_name data_type f r h
    simp [updatedFeature, h]
  · intro file_name data_type f h
    simp [updatedFeature, h]

/-- Witness for C4: concrete session whose single matched feature has its
stored mapping replaced by the emitted one. -/
theorem c4_witness :
    (is_in_pna 0 0 0 0 chiroSources).2 = specUpdated (0, 0) chiroSources ∧
    (updatedFeature "chiro.geojson" "Chiroptères" (0, 0)
      ⟨RawGeom.rect (-10) (-10) 10 10, some [("t_enjeux", "fort")]⟩).properties =
      some chiroResult ∧
    updatedFeature "far.geojson" "Odonates" (0, 0)
      ⟨RawGeom.rect 100 100 200 200, some []⟩ =
      ⟨RawGeom.rect 100 100 200 200, some []⟩ :=
  ⟨(c4_in_place_mutation 0 0 0 0 chiroSources).1,
   (c4_in_place_mutation 0 0 0 0 chiroSources).2.1 "chiro.geojson" "Chiroptères"
     ⟨RawGeom.rect (-10) (-10) 10 10, some [("t_enjeux", "fort")]⟩
     chiroResult (by decide),
   (c4_in_place_mutation 0 0 0 0 chiroSources).2.2 "far.geojson" "Odonates"
     ⟨RawGeom.rect 100 100 200 200, some []⟩ (by decide)⟩

/-- C5: features whose geometry cannot be interpreted are skipped without
aborting the query — the flag and result sequence are exactly those
obtained on the same session with every unparsable-geometry feature
removed. -/
theorem c5_corrupt_features_skipped (lat lon x y : ℤ)
    (sources : List (String × FileInfo)) :
    (is_in_pna lat lon x y sources).1 =
      (is_in_pna lat lon x y (sources.map fun e =>
        (e.1, ⟨⟨e.2.data.hasType, e.2.data.hasFeatures,
                e.2.data.features.filter validGeom⟩, e.2.type⟩))).1 := by
  rw [is_in_pna_spec, is_in_pna_spec]
  have hsm : specMatches (x, y) (sources.map fun e =>
      (e.1, (⟨⟨e.2.data.hasType, e.2.data.hasFeatures,
              e.2.data.features.filter validGeom⟩, e.2.type⟩ : FileInfo))) =
      specMatches (x, y) sources := by
    induction sources with
    | nil => rfl
    | cons e t ih =>
      simp only [List.map_cons, specMatches, List.flatMap_cons] at ih ⊢
      rw [ih, filterMap_featureMatchOpt_filter]
  rw [hsm]

/-- C8: every emitted result is the transformed mapping of a feature of
some loaded dataset; it carries the owning dataset's type under `type_pna`
and the source file name under `fichier_source`, and for Chiroptères
datasets the `enjeu_détaillé` field taken from the feature's `t_enjeux`
attribute with default `Indéterminé`. -/
theorem c8_result_fields (lat lon x y : ℤ) (sources : List (String × FileInfo))
    (res : List Props) (hres : (is_in_pna lat lon x y sources).1.2 = some res) :
    ∀ r ∈ res, ∃ e, e ∈ sources ∧ ∃ f, f ∈ e.2.data.features ∧ ∃ ps,
      f.properties = some ps ∧ r = transformProps e.1 e.2.type ps ∧
      dictGet r "type_pna" = some e.2.type ∧
      dictGet r "fichier_source" = some e.1 ∧
      (e.2.type = "Chiroptères" →
        dictGet r "enjeu_détaillé" =
          some (dictGetD ps "t_enjeux" "Indéterminé")) := by
  rw [is_in_pna_spec] at hres
  by_cases h : specMatches (x, y) sources = []
  · simp [if_pos h] at hres
  · simp only [if_neg h] at hres
    have hr : res = specMatches (x, y) sources := by
      cases hres
      rfl
    subst hr
    intro r hr
    rw [specMatches, List.mem_flatMap] at hr
    obtain ⟨e, he, hr⟩ := hr
    rw [List.mem_filterMap] at hr
    obtain ⟨f, hf, hfm⟩ := hr
    refine ⟨e, he, f, hf, ?_⟩
    cases hg : parseShape f.geometry with
    | none => rw [featureMatchOpt_invalid hg] at hfm; cases hfm
    | some g =>
      cases hp : f.properties with
      | none =>
        have hz : featureMatchOpt e.1 e.2.type (x, y) f = none := by
          unfold featureMatchOpt
          rw [hg, hp]
        rw [hz] at hfm
        cases hfm
      | some ps =>
        have hfm2 : (if matchTest g (x, y) = true
            then some (transformProps e.1 e.2.type ps) else none) = some r := by
          rw [← hfm]
          unfold featureMatchOpt
          rw [hg, hp]
        by_cases hm : matchTest g (x, y) = true
        · rw [if_pos hm] at hfm2
          cases hfm2
          refine ⟨ps, rfl, rfl, transformProps_type_pna _ _ _,
            transformProps_fichier_source _ _ _, ?_⟩
          intro hty
          rw [hty]
          exact transformProps_enjeu _ _
        · rw [if_neg hm] at hfm2
          cases hfm2

/-- Witness for C8 at the concrete Chiroptères session. -/
theorem c8_witness :
    ∃ e, e ∈ chiroSources ∧ ∃ f, f ∈ e.2.data.features ∧ ∃ ps,
      f.properties = some ps ∧ chiroResult = transformProps e.1 e.2.type ps ∧
      dictGet chiroResult "type_pna" = some e.2.type ∧
      dictGet chiroResult "fichier_source" = some e.1 ∧
      (e.2.type = "Chiroptères" →
        dictGet chiroResult "enjeu_détaillé" =
          some (dictGetD ps "t_enjeux" "Indéterminé")) :=
  c8_result_fields 0 0 0 0 chiroSources [chiroResult] (by decide)
    chiroResult (by decide)

/-- C9: an uploaded file whose document fails to parse or lacks the
top-level `type` or `features` key is rejected (it contributes no session
entry), the remaining files are processed as if it were absent, and every
structurally valid file is loaded normally. -/
theorem c9_invalid_file_rejected (mode : String) (pre post : List UploadedFile)
    (f : UploadedFile) (h : invalidUpload f) :
    processFile mode f = none ∧
    loadFiles mode (pre ++ f :: post) = loadFiles mode (pre ++ post) ∧
    (∀ (g : UploadedFile) (d : Doc), g.parsed = some d → d.hasType = true →
      d.hasFeatures = true →
      (fileExtension g.name = "geojson" ∨ fileExtension g.name = "json") →
      processFile mode g =
        some (g.name, ⟨d, classifyValid mode g.name d.features⟩)) := by
  have hnone : processFile mode f = none := by
    obtain ⟨nm, parsed⟩ := f
    rcases h with h | ⟨d, hd, hflags⟩
    · simp only at h
      subst h
      simp [processFile]
    · simp only at hd
      subst hd
      rcases hflags with hfl | hfl <;> simp [processFile, hfl]
  refine ⟨hnone, ?_, ?_⟩
  · unfold loadFiles
    rw [List.foldl_append, List.foldl_append, List.foldl_cons]
    simp [hnone]
  · intro g d hd ht hf hext
    obtain ⟨nm, parsed⟩ := g
    simp only at hd
    subst hd
    rcases hext with hx | hx <;> simp [processFile, hx, ht, hf]

/-- Witness for C9: a session where a parse-failing file sits between two
valid ones. -/
theorem c9_witness :
    processFile "Détection automatique" badUpload = none ∧
    loadFiles "Détection automatique" [goodUpload, badUpload, goodUpload2] =
      loadFiles "Détection automatique" [goodUpload, goodUpload2] ∧
    processFile "Détection automatique" goodUpload =
      some (goodUpload.name,
        ⟨⟨true, true, []⟩,
         classifyValid "Détection automatique" goodUpload.name []⟩) :=
  ⟨(c9_invalid_file_rejected "Détection automatique" [goodUpload] [goodUpload2]
      badUpload (Or.inl rfl)).1,
   (c9_invalid_file_rejected "Détection automatique" [goodUpload] [goodUpload2]
      badUpload (Or.inl rfl)).2.1,
   (c9_invalid_file_rejected "Détection automatique" [goodUpload] [goodUpload2]
      badUpload (Or.inl rfl)).2.2 goodUpload ⟨true, true, []⟩ rfl rfl rfl
     (Or.inl (by decide))⟩

end ZonagePNA
